import Mathlib

/-!
Shallow embedding of the DoTrack-Go telematics gateway core: the GT06, H02 and
Teltonika protocol decoders, the canonical `Position` record, and the TCP
connection handler (`handleConnection` / `authenticateDevice`).

Conventions of the embedding:
* A Go byte slice is a `List ℕ` whose entries are byte values (< 256 where it
  matters; theorems that depend on this carry an explicit hypothesis).
* Go `float64` arithmetic on the decoded quantities is modelled in `ℚ`.  All
  concrete values appearing in the claims are exact decimal fractions whose
  IEEE-754 round-off is far below every tolerance the claims use, except for
  the Teltonika wire fields, where the bit-level IEEE-754 decoding is modelled
  exactly (see `Teltonika.FVal`).
* Go runtime panics (out-of-range slice index) are modelled by a distinguished
  error value, so totality of a decoder is a provable statement.
* `time.Time` values are modelled by `GoTime`: the zero value, an opaque
  wall-clock reading (`time.Now()` at decode start), or an explicit
  broken-down UTC date.
-/

namespace DoTrack

/-- Broken-down UTC date/time as produced by `time.Date(..., time.UTC)`.
The Go runtime normalises out-of-range fields (e.g. Feb 31); the decoders
validate `month ≤ 12`, `day ≤ 31`, etc. before constructing, and no claim
depends on normalisation, so fields are stored as given. -/
structure DateTime where
  year : ℕ
  month : ℕ
  day : ℕ
  hour : ℕ
  minute : ℕ
  second : ℕ
deriving DecidableEq, Repr

/-- A `time.Time` as the decoders use it: the zero value `time.Time{}`, an
opaque wall-clock reading (`time.Now()`), or a parsed UTC instant. -/
inductive GoTime where
  | zero : GoTime
  | wallClock : GoTime
  | known : DateTime → GoTime
deriving DecidableEq, Repr

/-- A value stored in a `map[string]interface{}` attribute map. -/
inductive Attr where
  | int : ℤ → Attr
  | bool : Bool → Attr
  | str : String → Attr
  | rat : ℚ → Attr
deriving DecidableEq, Repr

/-- Attribute maps are modelled as association lists; the Go maps involved
never receive the same key twice, so only the key/value pairs matter. -/
abbrev AttrMap := List (String × Attr)

/-- Big-endian interpretation of a byte list (`binary.BigEndian.Uint16/32/64`
applied to a slice of the corresponding length). -/
def beNat (l : List ℕ) : ℕ :=
  l.foldl (fun a b => a * 256 + b) 0

/-- Bytes of a Go string (`[]byte(s)`); exact for the ASCII data the
protocols carry. -/
def strBytes (s : String) : List ℕ :=
  s.data.map Char.toNat

/-- Go `string(data)` on a byte slice; exact for ASCII bytes. -/
def asciiStr (l : List ℕ) : String :=
  ⟨l.map Char.ofNat⟩

/-- Lowercase hex digit, as `fmt.Sprintf("%x", ...)` prints. -/
def hexDigitLower (n : ℕ) : Char :=
  if n < 10 then Char.ofNat (48 + n) else Char.ofNat (87 + n)

/-- Uppercase hex digit, as `fmt.Sprintf("%X", ...)` prints. -/
def hexDigitUpper (n : ℕ) : Char :=
  if n < 10 then Char.ofNat (48 + n) else Char.ofNat (55 + n)

/-- `fmt.Sprintf("%x", bs)` for a byte slice: two lowercase hex digits per byte. -/
def hexLower (l : List ℕ) : String :=
  ⟨l.foldr (fun b acc => hexDigitLower ((b >>> 4) &&& 0xF) :: hexDigitLower (b &&& 0xF) :: acc) []⟩

/-- `fmt.Sprintf("%X", bs)` for a byte slice: two uppercase hex digits per byte. -/
def hexUpper (l : List ℕ) : String :=
  ⟨l.foldr (fun b acc => hexDigitUpper ((b >>> 4) &&& 0xF) :: hexDigitUpper (b &&& 0xF) :: acc) []⟩

/-- Canonical position record (`internal/core/model/position.go`).  The `ID`
field (a fresh random id) and the `Address` field are omitted: no claim
mentions them.  `Altitude` is kept as the Teltonika embedding's float value
when it comes from that decoder and `0` otherwise. -/
structure Position where
  deviceID : String
  timestamp : GoTime
  latitude : ℚ
  longitude : ℚ
  speed : ℚ
  course : ℚ
  protocol : String
  valid : Bool
  satellites : ℕ
  status : AttrMap
deriving DecidableEq, Repr

/-- `model.NewPosition`: fresh position with `Timestamp: time.Now()`,
`Protocol: "unknown"`, `Valid: true`, empty status map. -/
def NewPosition (deviceID : String) (lat lon : ℚ) : Position where
  deviceID := deviceID
  timestamp := .wallClock
  latitude := lat
  longitude := lon
  speed := 0
  course := 0
  protocol := "unknown"
  valid := true
  satellites := 0
  status := []

namespace GT06

/-- Error outcomes of the GT06 decoder (`internal/protocol/gt06/decoder.go`,
first variant).  `panicked` models a Go runtime panic from an out-of-bounds
slice expression; `locationTooShort` / `loginTooShort` are the ad-hoc
`fmt.Errorf` messages of the sub-decoders. -/
inductive GTErr where
  | invalidHeader
  | packetTooShort
  | invalidChecksum
  | invalidCoordinate
  | invalidTimestamp
  | invalidLength
  | invalidMessageType
  | malformedPacket
  | locationTooShort
  | loginTooShort
  | panicked
deriving DecidableEq, Repr

/-- Decoded GT06 payload (`GT06Data`).  Zero values of the Go struct are the
defaults here: `Timestamp` is the zero `time.Time`, numeric fields are 0,
`Alarm` is the empty string, `Status` the fields inserted by the decoder. -/
structure GT06Data where
  latitude : ℚ := 0
  longitude : ℚ := 0
  speed : ℚ := 0
  course : ℚ := 0
  timestamp : GoTime := .zero
  valid : Bool := false
  gpsValid : Bool := false
  satellites : ℕ := 0
  powerLevel : ℕ := 0
  gsmSignal : ℕ := 0
  alarm : String := ""
  status : AttrMap := []
deriving DecidableEq, Repr

/-- Go index expression `data[i]`: the value, or a runtime panic when out of
bounds. -/
def gIdx (l : List ℕ) (i : ℕ) : Except GTErr ℕ :=
  if h : i < l.length then .ok (l.get ⟨i, h⟩) else .error .panicked

/-- Go slice expression `data[i:j]`: requires `i ≤ j ≤ len(data)`, else panics. -/
def gSlice (l : List ℕ) (i j : ℕ) : Except GTErr (List ℕ) :=
  if i ≤ j ∧ j ≤ l.length then .ok ((l.drop i).take (j - i)) else .error .panicked

/-- `bcdToDec`: `int(b>>4)*10 + int(b&0x0F)`. -/
def bcdToDec (b : ℕ) : ℕ :=
  (b >>> 4) * 10 + (b &&& 0x0F)

/-- The value computed by `bcdToFloat` (decoder.go:329-338): the top three
bytes of the 32-bit word as two-digit BCD pairs weighted 10 / 1-60th /
1-3600th; the lowest byte does not occur in the expression.  `byte(x)` is
modelled as `&&& 0xFF`. -/
def bcdValue (bcd : ℕ) : ℚ :=
  (bcdToDec ((bcd >>> 24) &&& 0xFF) : ℚ) * 10
    + (bcdToDec ((bcd >>> 16) &&& 0xFF) : ℚ) / 60
    + (bcdToDec ((bcd >>> 8) &&& 0xFF) : ℚ) / 3600

/-- `bcdToFloat` (decoder.go:329-338): returns `bcdValue` with a nil error on
every input — the function body contains no validation and no error path. -/
def bcdToFloat (bcd : ℕ) : Except GTErr ℚ :=
  .ok (bcdValue bcd)

/-- The second `bcdToFloat` variant (decoder.go:626-637): degrees from
nibbles 5 and 4, minutes from nibbles 3 and 2 plus nibbles 1 and 0 as
hundredths; errors when `deg > 90` or `min ≥ 60`. -/
def bcdToFloatV2 (bcd : ℕ) : Except GTErr ℚ :=
  let deg : ℚ := ((bcd >>> 20) &&& 0xF : ℕ) * 10 + ((bcd >>> 16) &&& 0xF : ℕ)
  let mn : ℚ := (((bcd >>> 12) &&& 0xF : ℕ) * 10 + ((bcd >>> 8) &&& 0xF : ℕ) : ℚ)
      + (((bcd >>> 4) &&& 0xF : ℕ) * 10 + (bcd &&& 0xF : ℕ) : ℚ) / 100
  if 90 < deg ∨ 60 ≤ mn then .error .invalidCoordinate
  else .ok (deg + mn / 60)

/-- `parseTimestamp` on the six bytes supplied by the `bytes.Reader` over
`data[12:18]`; the reader always delivers exactly six bytes at the one call
site, so a shorter list models the reader error path. -/
def parseTimestampGT (ts : List ℕ) : Except GTErr DateTime :=
  match ts with
  | [b0, b1, b2, b3, b4, b5] =>
    let year := 2000 + ((b0 >>> 4) * 10 + (b0 &&& 0x0F))
    let month := (b1 >>> 4) * 10 + (b1 &&& 0x0F)
    let day := (b2 >>> 4) * 10 + (b2 &&& 0x0F)
    let hour := (b3 >>> 4) * 10 + (b3 &&& 0x0F)
    let minute := (b4 >>> 4) * 10 + (b4 &&& 0x0F)
    let second := (b5 >>> 4) * 10 + (b5 &&& 0x0F)
    if month < 1 ∨ 12 < month ∨ day < 1 ∨ 31 < day
        ∨ 23 < hour ∨ 59 < minute ∨ 59 < second then
      .error .invalidTimestamp
    else
      .ok ⟨year, month, day, hour, minute, second⟩
  | _ => .error .invalidTimestamp

/-- `decodeLocationMessage` (decoder.go:177-215).  Mirrors the Go control
flow byte for byte, including the under-guarded slice expressions
`data[10:12]` (guard `len ≥ 11`) and `data[12:18]` (guard `len ≥ 16`), and
the silently swallowed `parseTimestamp` error. -/
def decodeLocationMessage (data : List ℕ) : Except GTErr GT06Data := do
  if data.length < 10 then throw .locationTooShort
  let statusByte ← gIdx data 0
  let latB ← gSlice data 1 5
  let lat ← bcdToFloat (beNat latB)
  let lonB ← gSlice data 5 9
  let lon ← bcdToFloat (beNat lonB)
  let speedB ← gIdx data 9
  let course : ℚ ←
    if 11 ≤ data.length then do
      let cB ← gSlice data 10 12
      pure (beNat cB : ℚ)
    else pure 0
  let timestamp : GoTime ←
    if 16 ≤ data.length then do
      let tB ← gSlice data 12 18
      match parseTimestampGT tB with
      | .ok t => pure (.known t)
      | .error _ => pure .zero
    else pure .zero
  return { valid := true
           gpsValid := statusByte &&& 0x01 == 0x01
           satellites := (statusByte >>> 2) &&& 0x0F
           latitude := lat
           longitude := lon
           speed := (speedB : ℚ)
           course := course
           timestamp := timestamp
           status := [] }

/-- `decodeStatusMessage` (decoder.go:217-249). -/
def decodeStatusMessage (data : List ℕ) : Except GTErr GT06Data := do
  if data.length < 4 then throw .invalidLength
  let statusByte ← gIdx data 0
  let powerLevel := (statusByte >>> 4) &&& 0x0F
  let gsmSignal := statusByte &&& 0x0F
  if 15 < powerLevel then throw .malformedPacket
  let base : AttrMap := [("powerLevel", .int powerLevel), ("gsmSignal", .int gsmSignal)]
  let status ←
    if 1 < data.length then do
      let b1 ← gIdx data 1
      pure (base ++ [("charging", .bool (b1 &&& 0x20 != 0)),
                     ("engineOn", .bool (b1 &&& 0x40 != 0))])
    else pure base
  return { valid := true
           powerLevel := powerLevel
           gsmSignal := gsmSignal
           status := status }

/-- `decodeLoginMessage` (decoder.go:251-265). -/
def decodeLoginMessage (data : List ℕ) : Except GTErr GT06Data := do
  if data.length < 8 then throw .loginTooShort
  let imeiB ← gSlice data 0 8
  return { valid := true
           status := [("imei", .str (hexLower imeiB))] }

/-- `GetAlarmName`-style mapping inlined in `decodeAlarmMessage`. -/
def alarmName (alarmType : ℕ) : String :=
  if alarmType = 0x01 then "sos"
  else if alarmType = 0x02 then "powerCut"
  else if alarmType = 0x03 then "vibration"
  else if alarmType = 0x04 then "geofenceEnter"
  else if alarmType = 0x05 then "geofenceExit"
  else if alarmType = 0x06 then "lowBattery"
  else if alarmType = 0x07 then "overspeed"
  else "unknown_" ++ hexLower [alarmType]

/-- `decodeAlarmMessage` (decoder.go:267-305): location decode of all but the
last byte, then the alarm-kind byte.  `data[:len(data)-1]` on an empty slice
is a Go panic. -/
def decodeAlarmMessage (data : List ℕ) : Except GTErr GT06Data := do
  if data.length = 0 then throw .panicked
  let body ← gSlice data 0 (data.length - 1)
  let locationData ← decodeLocationMessage body
  let alarmType ← gIdx data (data.length - 1)
  let name := alarmName alarmType
  return { locationData with
           alarm := name
           status := locationData.status ++ [("alarm", .str name)] }

/-- `calculateChecksum` (= `calculateCRC`): 16-bit XOR of each byte. -/
def calculateChecksum (data : List ℕ) : ℕ :=
  data.foldl Nat.xor 0

/-- The per-type minimum total packet size used by `Decode`. -/
def minTotal (protocolNumber : ℕ) : Option ℕ :=
  if protocolNumber = 0x01 then some 15
  else if protocolNumber = 0x12 then some 26
  else if protocolNumber = 0x13 then some 13
  else if protocolNumber = 0x16 then some 27
  else none

/-- `Decode` (decoder.go:90-175): start bytes, per-type minimum size,
declared-length check (`data[2] = len(data) - 5`), XOR checksum over
`data[2:len-4]`, end bytes, then the per-type sub-decoder on
`data[4:len-4]`. -/
def Decode (data : List ℕ) : Except GTErr GT06Data := do
  if data.length < 7 then throw .packetTooShort
  let b0 ← gIdx data 0
  let b1 ← gIdx data 1
  if ¬ (b0 = 0x78 ∧ b1 = 0x78) then throw .invalidHeader
  let protocolNumber ← gIdx data 3
  let minLength ←
    match minTotal protocolNumber with
    | some m => pure m
    | none => throw .invalidMessageType
  if data.length < minLength then throw .packetTooShort
  let declaredLen ← gIdx data 2
  let expectedLen := data.length - 5
  if declaredLen ≠ expectedLen then throw .invalidLength
  let checksumPos := data.length - 4
  let csData ← gSlice data 2 checksumPos
  let calcChecksum := calculateChecksum csData
  let c0 ← gIdx data checksumPos
  let c1 ← gIdx data (checksumPos + 1)
  let recvChecksum := (c0 <<< 8) ||| c1
  if calcChecksum ≠ recvChecksum then throw .invalidChecksum
  let e0 ← gIdx data (data.length - 2)
  let e1 ← gIdx data (data.length - 1)
  if ¬ (e0 = 0x0D ∧ e1 = 0x0A) then throw .malformedPacket
  let content ← gSlice data 4 checksumPos
  if protocolNumber = 0x01 then decodeLoginMessage content
  else if protocolNumber = 0x12 then decodeLocationMessage content
  else if protocolNumber = 0x13 then decodeStatusMessage content
  else decodeAlarmMessage content

/-- `ToPosition` (decoder.go:340-368).  The `Status` copy loop iterates a Go
map; every key it can add is distinct from the conditionally added ones or
skipped by the `exists` check, so the association list below has exactly the
key/value pairs of the Go map. -/
def ToPosition (deviceID : String) (data : GT06Data) : Position :=
  let base := NewPosition deviceID data.latitude data.longitude
  let st0 : AttrMap :=
    (if 0 < data.powerLevel then [("powerLevel", .int data.powerLevel)] else [])
    ++ (if 0 < data.gsmSignal then [("gsmSignal", .int data.gsmSignal)] else [])
    ++ (if data.alarm ≠ "" then [("alarm", .str data.alarm)] else [])
  let st := st0 ++ data.status.filter (fun kv => (st0.lookup kv.1).isNone)
  { base with
    speed := data.speed
    course := data.course
    valid := data.gpsValid
    timestamp := data.timestamp
    protocol := "gt06"
    satellites := data.satellites
    status := st }

/-- `generateLoginResponse` (decoder.go:406-442).  `nowH`/`nowM` are the UTC
hour and minute read from `time.Now()` at the moment of the call; `byte(x)`
is modelled as `% 256`. -/
def generateLoginResponse (deviceID : String) (nowH nowM : ℕ) : List ℕ :=
  let respLen := (strBytes deviceID).length + 10
  let head := [0x78, 0x78, respLen % 256, 0x01] ++ strBytes deviceID
      ++ [nowH % 256, nowM % 256, 0x00, 0x01, 0x00, 0x00]
  let crc := calculateChecksum (head.drop 2)
  head ++ [(crc >>> 8) % 256, crc % 256, 0x0D, 0x0A]

/-- `generateLocationResponse` (decoder.go:444-454): constant bytes. -/
def generateLocationResponse : List ℕ :=
  [0x78, 0x78, 0x05, 0x12, 0x00, 0x01, 0x00, 0x01, 0x0D, 0x0A]

/-- `generateAlarmResponse` (decoder.go:456-466): constant bytes. -/
def generateAlarmResponse : List ℕ :=
  [0x78, 0x78, 0x05, 0x16, 0x00, 0x01, 0x00, 0x01, 0x0D, 0x0A]

/-- `GenerateResponse` (decoder.go:393-404); the clock pair feeds only the
login branch. -/
def GenerateResponse (msgType : ℕ) (deviceID : String) (nowH nowM : ℕ) : List ℕ :=
  if msgType = 0x01 then generateLoginResponse deviceID nowH nowM
  else if msgType = 0x12 then generateLocationResponse
  else if msgType = 0x16 then generateAlarmResponse
  else generateLocationResponse

end GT06

namespace H02

/-- Error outcomes of the H02 decoder (`internal/protocol/h02/decoder.go`,
first variant). -/
inductive H02Err where
  | invalidHeader
  | packetTooShort
  | invalidFormat
  | invalidCoordinate
  | invalidMessageType
  | badCoordFormat
deriving DecidableEq, Repr

/-- Decoded H02 payload (`H02Data`); `Timestamp` starts as `time.Now()`. -/
structure H02Data where
  latitude : ℚ := 0
  longitude : ℚ := 0
  speed : ℚ := 0
  course : ℚ := 0
  timestamp : GoTime := .wallClock
  valid : Bool := false
  powerLevel : ℕ := 0
  gsmSignal : ℕ := 0
  alarm : String := ""
  status : AttrMap := []
deriving DecidableEq, Repr

/-- Numeric value of a nonempty all-digit character list. -/
def digitsVal (cs : List Char) : Option ℕ :=
  if cs ≠ [] ∧ cs.all Char.isDigit then
    some (cs.foldl (fun a c => a * 10 + (c.toNat - 48)) 0)
  else none

/-- `strconv.ParseFloat(s, 64)`, idealised to the exact decimal value in `ℚ`.
Covers the decimal forms the protocol carries (optional sign, digits, one
optional decimal point); exponent/hex/Inf/NaN spellings are treated as parse
errors.  The IEEE-754 rounding that `ParseFloat` applies is dropped: every
concrete value in the claims is checked with a tolerance far above it. -/
def parseFloatQ (s : String) : Option ℚ :=
  let signed : ℚ × String :=
    if s.startsWith "-" then (-1, s.drop 1)
    else if s.startsWith "+" then (1, s.drop 1) else (1, s)
  match (signed.2.splitOn ".").map String.data with
  | [ip] => (digitsVal ip).map (fun n => signed.1 * n)
  | [ip, fp] =>
    if ip.all Char.isDigit ∧ fp.all Char.isDigit ∧ (ip ≠ [] ∨ fp ≠ []) then
      some (signed.1 * ((ip.foldl (fun a c => a * 10 + (c.toNat - 48)) 0 : ℕ)
          + (fp.foldl (fun a c => a * 10 + (c.toNat - 48)) 0 : ℕ) / (10 : ℚ) ^ fp.length))
    else none
  | _ => none

/-- `strconv.ParseUint(s, 10, 8)`: digits only, value below `2^8`. -/
def parseUint8 (s : String) : Option ℕ :=
  (digitsVal s.data).bind (fun n => if n ≤ 255 then some n else none)

/-- `parsePowerLevel`: clamp to 100 on success, 0 on parse error. -/
def parsePowerLevel (power : String) : ℕ :=
  match parseUint8 power with
  | some v => if 100 < v then 100 else v
  | none => 0

/-- `parseGSMSignal`: clamp to 31 on success, 0 on parse error. -/
def parseGSMSignal (signal : String) : ℕ :=
  match parseUint8 signal with
  | some v => if 31 < v then 31 else v
  | none => 0

/-- `strconv.Atoi` with its error discarded, as the call sites
`year, _ := strconv.Atoi(...)` do: the value on a full parse, else 0. -/
def goAtoi0 (s : String) : ℤ :=
  if s.startsWith "-" then
    match digitsVal (s.drop 1).data with
    | some n => -(n : ℤ)
    | none => 0
  else if s.startsWith "+" then
    match digitsVal (s.drop 1).data with
    | some n => (n : ℤ)
    | none => 0
  else
    match digitsVal s.data with
    | some n => (n : ℤ)
    | none => 0

/-- Go `int(x)` on a float: truncation toward zero. -/
def truncQ (q : ℚ) : ℤ :=
  Int.tdiv q.num (q.den : ℤ)

/-- `parseCoordinate` (h02/decoder.go:162-199): `DDMM.MMMM` degrees/minutes
split via `int(val/100)`, hemisphere sign, then a range check on the final
value against the axis the hemisphere letter selects. -/
def parseCoordinate (coord dir : String) : Except H02Err ℚ :=
  match parseFloatQ coord with
  | none => .error .badCoordFormat
  | some val =>
    let degrees : ℚ := (truncQ (val / 100) : ℤ)
    let minutes := val - degrees * 100
    let res := degrees + minutes / 60
    let res := if dir = "S" ∨ dir = "W" then -res else res
    if (dir = "N" ∨ dir = "S") ∧ (res < -90 ∨ 90 < res) then .error .invalidCoordinate
    else if (dir = "E" ∨ dir = "W") ∧ (res < -180 ∨ 180 < res) then .error .invalidCoordinate
    else .ok res

/-- `parseTimestamp` (h02/decoder.go:201-217): a six-character date read as
`YYMMDD` — year `"20"+date[0:2]`, month `date[2:4]`, day `date[4:6]` — with
`Atoi` errors silently mapped to 0 and only month/day range-checked. -/
def parseTimestampH02 (date : String) : Except H02Err DateTime :=
  if date.length ≠ 6 then .error .invalidFormat
  else
    let year := goAtoi0 ("20" ++ date.take 2)
    let month := goAtoi0 ((date.drop 2).take 2)
    let day := goAtoi0 ((date.drop 4).take 2)
    if month < 1 ∨ 12 < month ∨ day < 1 ∨ 31 < day then .error .invalidFormat
    else .ok ⟨year.toNat, month.toNat, day.toNat, 0, 0, 0⟩

/-- `decodeInfoReport` (h02/decoder.go:103-160) on the fields after the
message type.  All indexing is covered by the `≥ 10` guard, so plain `getD`
is used.  Speed/course parse errors leave the zero value; a timestamp parse
error leaves the `time.Now()` default. -/
def decodeInfoReport (parts : List String) : Except H02Err H02Data := do
  if parts.length < 10 then throw .invalidFormat
  let valid := parts.getD 1 "" = "A"
  let lat ← parseCoordinate (parts.getD 2 "") (parts.getD 3 "")
  let lon ← parseCoordinate (parts.getD 4 "") (parts.getD 5 "")
  let speed : ℚ :=
    match parseFloatQ (parts.getD 6 "") with
    | some v => v * (1852 / 1000)
    | none => 0
  let course : ℚ :=
    match parseFloatQ (parts.getD 7 "") with
    | some v => v
    | none => 0
  let timestamp : GoTime :=
    match parseTimestampH02 (parts.getD 8 "") with
    | .ok t => .known t
    | .error _ => .wallClock
  let (powerLevel, status) : ℕ × AttrMap :=
    if 9 < parts.length then
      let p := parsePowerLevel (parts.getD 9 "")
      (p, [("powerLevel", .int p)])
    else (0, [])
  return { valid := valid
           latitude := lat
           longitude := lon
           speed := speed
           course := course
           timestamp := timestamp
           powerLevel := powerLevel
           status := status }

/-- `decodeAlarmReport` (h02/decoder.go:229-256): an info report plus the
alarm-kind field `parts[8]`. -/
def decodeAlarmReport (parts : List String) : Except H02Err H02Data := do
  let result ← decodeInfoReport parts
  if 8 < parts.length then
    let alarmCode := parts.getD 8 ""
    let name :=
      if alarmCode = "0" then "sos"
      else if alarmCode = "1" then "powerCut"
      else if alarmCode = "2" then "lowBattery"
      else if alarmCode = "3" then "overspeed"
      else if alarmCode = "4" then "geofence"
      else "unknown_" ++ alarmCode
    return { result with alarm := name, status := result.status ++ [("alarm", .str name)] }
  else
    return result

/-- `decodeStatusReport` (h02/decoder.go:258-281). -/
def decodeStatusReport (parts : List String) : Except H02Err H02Data := do
  if 3 < parts.length then
    let gsm := parseGSMSignal (parts.getD 2 "")
    let pl := parsePowerLevel (parts.getD 3 "")
    let base : AttrMap := [("gsmSignal", .int gsm), ("powerLevel", .int pl)]
    let status :=
      if 4 < parts.length then
        let flags := (parts.getD 4 "")
        base ++ [("charging", .bool ((flags.splitOn "C").length != 1)),
                 ("engineOn", .bool ((flags.splitOn "E").length != 1))]
      else base
    return { valid := true, gsmSignal := gsm, powerLevel := pl, status := status }
  else
    return { valid := true, status := [] }

/-- Go `strings.TrimPrefix(s, pre)`. -/
def dropStart (s pre : String) : String :=
  if s.startsWith pre then s.drop pre.length else s

/-- `Decode` (h02/decoder.go:61-101) on the ASCII form of the input bytes:
length guard, `*HQ,` header, marker stripping, comma split, dispatch on the
message type.  `strings.Contains` in the status branch is modelled through
`splitOn` above.  (The Go error path slices `dataStr[:4]` while formatting
the header error and would panic if trimming left fewer than four bytes;
that formatting detail is folded into the `invalidHeader` outcome here.) -/
def Decode (s : String) : Except H02Err H02Data :=
  if s.length < 20 then .error .packetTooShort
  else
    let t := s.trim
    if ¬ t.startsWith "*HQ," then .error .invalidHeader
    else
      let t := dropStart t "*HQ,"
      let t := if t.endsWith "#" then t.dropRight 1 else t
      let parts := t.splitOn ","
      if parts.length < 3 then .error .invalidFormat
      else if parts.getD 0 "" = "V1" then decodeInfoReport parts.tail
      else if parts.getD 0 "" = "V2" then decodeAlarmReport parts.tail
      else if parts.getD 0 "" = "V3" then decodeStatusReport parts.tail
      else .error .invalidMessageType

/-- `ToPosition` (h02/decoder.go:339-366); same association-list reading of
the Go map as in the GT06 case. -/
def ToPosition (deviceID : String) (data : H02Data) : Position :=
  let base := NewPosition deviceID data.latitude data.longitude
  let st0 : AttrMap :=
    (if 0 < data.powerLevel then [("powerLevel", .int data.powerLevel)] else [])
    ++ (if 0 < data.gsmSignal then [("gsmSignal", .int data.gsmSignal)] else [])
    ++ (if data.alarm ≠ "" then [("alarm", .str data.alarm)] else [])
  let st := st0 ++ data.status.filter (fun kv => (st0.lookup kv.1).isNone)
  { base with
    speed := data.speed
    course := data.course
    timestamp := data.timestamp
    protocol := "h02"
    status := st }

end H02

namespace Teltonika

/-- Error outcomes of the Teltonika decoder
(`internal/protocol/teltonika/decoder.go`). -/
inductive TelErr where
  | packetTooShort
  | invalidCoordinate
  | invalidValue
deriving DecidableEq, Repr

/-- Value of an IEEE-754 binary float: NaN, a signed infinity, or the exact
finite rational. -/
inductive FVal where
  | nan : FVal
  | inf : Bool → FVal
  | fin : ℚ → FVal
deriving DecidableEq, Repr

/-- Exact value of a binary64 bit pattern (big-endian `binary.Read` into
`float64`). -/
def f64FromBits (bits : ℕ) : FVal :=
  let sign : ℕ := (bits >>> 63) &&& 1
  let e : ℕ := (bits >>> 52) &&& 0x7FF
  let m : ℕ := bits &&& (2 ^ 52 - 1)
  let sgn : ℚ := if sign = 1 then -1 else 1
  if e = 0x7FF then
    if m = 0 then .inf (sign = 1) else .nan
  else if e = 0 then
    .fin (sgn * (m : ℚ) * (2 : ℚ) ^ (-1074 : ℤ))
  else
    .fin (sgn * ((2 ^ 52 + m : ℕ) : ℚ) * (2 : ℚ) ^ ((e : ℤ) - 1075))

/-- Exact value of a binary32 bit pattern; Go widens the `float32` to
`float64` without changing the value, so the result is reported as `FVal`. -/
def f32FromBits (bits : ℕ) : FVal :=
  let sign : ℕ := (bits >>> 31) &&& 1
  let e : ℕ := (bits >>> 23) &&& 0xFF
  let m : ℕ := bits &&& (2 ^ 23 - 1)
  let sgn : ℚ := if sign = 1 then -1 else 1
  if e = 0xFF then
    if m = 0 then .inf (sign = 1) else .nan
  else if e = 0 then
    .fin (sgn * (m : ℚ) * (2 : ℚ) ^ (-149 : ℤ))
  else
    .fin (sgn * ((2 ^ 23 + m : ℕ) : ℚ) * (2 : ℚ) ^ ((e : ℤ) - 150))

/-- `isValidCoordinate` (decoder.go:153-155) under IEEE comparison
semantics: a comparison with NaN is false, and an infinity fails one of the
two bounds, so only finite in-range coordinate pairs pass. -/
def isValidCoordinate (lat lon : FVal) : Bool :=
  match lat, lon with
  | .fin a, .fin b => decide (-90 ≤ a ∧ a ≤ 90 ∧ -180 ≤ b ∧ b ≤ 180)
  | _, _ => false

/-- Floor of log2 on positive naturals, by fuel so the kernel can reduce it. -/
def log2Fuel : ℕ → ℕ → ℕ
  | 0, _ => 0
  | fuel + 1, n => if 2 ≤ n then log2Fuel fuel (n / 2) + 1 else 0

/-- `natLog2 n = ⌊log₂ n⌋` for `n ≥ 1`. -/
def natLog2 (n : ℕ) : ℕ :=
  log2Fuel n n

/-- `natClog2 n`: least `k` with `n ≤ 2^k`, for `n ≥ 1`. -/
def natClog2 (n : ℕ) : ℕ :=
  if n ≤ 1 then 0 else natLog2 (n - 1) + 1

/-- `⌊log₂ q⌋` for a positive rational. -/
def floorLog2Q (q : ℚ) : ℤ :=
  if q.den ≤ q.num.toNat then (natLog2 (q.num.toNat / q.den) : ℤ)
  else -(natClog2 ((q.den + q.num.toNat - 1) / q.num.toNat) : ℤ)

/-- Round a nonnegative rational to the nearest integer, ties to even. -/
def rneQ (q : ℚ) : ℕ :=
  let n := q.num.toNat / q.den
  let r := q.num.toNat % q.den
  if 2 * r < q.den then n
  else if q.den < 2 * r then n + 1
  else if n % 2 = 0 then n else n + 1

/-- Round a nonnegative rational in the binary64 normal range to the nearest
double (round-to-nearest, ties-to-even, 53-bit significand). -/
def roundDouble (q : ℚ) : ℚ :=
  if q = 0 then 0
  else
    let k : ℤ := 52 - floorLog2Q q
    (rneQ (q * (2 : ℚ) ^ k) : ℚ) * (2 : ℚ) ^ (-k)

/-- The exact value of the Go expression `float64(w) / 10.0` for a `uint16`
`w`: the integer converts exactly, and IEEE-754 division is correctly
rounded, so the result is the RNE rounding of `w/10` (which lies in the
normal range for every nonzero `w < 2^16`). -/
def speedDiv10 (w : ℕ) : ℚ :=
  roundDouble ((w : ℚ) / 10)

/-- Decoded Teltonika payload (`TeltonikaData`); `Timestamp` is
`time.Now()`, optional fields keep the Go zero value when absent. -/
structure TeltonikaData where
  latitude : FVal
  longitude : FVal
  altitude : FVal := .fin 0
  speed : ℚ := 0
  course : ℚ := 0
  timestamp : GoTime := .wallClock
  valid : Bool := true
  status : List (String × FVal ⊕ String × ℚ) := []
deriving DecidableEq, Repr

/-- Status-map entry: the Go map holds `float64` values; `altitude` keeps an
`FVal`, `speed` and `course` are finite by construction. -/
def altEntry (v : FVal) : (String × FVal) ⊕ (String × ℚ) := .inl ("altitude", v)

/-- Finite status-map entry for `speed` / `course`. -/
def ratEntry (k : String) (q : ℚ) : (String × FVal) ⊕ (String × ℚ) := .inr (k, q)

/-- `Decode` (teltonika/decoder.go:86-151): 16-byte minimum, big-endian
binary64 latitude and longitude, `isValidCoordinate` gate, then optional
binary32 altitude, `uint16` deci-km/h speed, and `uint16` course rejected
above 360.  Each optional read is guarded by `reader.Len()`, so no read can
fail and the control flow is exactly the chain below. -/
def Decode (data : List ℕ) : Except TelErr TeltonikaData :=
  if data.length < 16 then .error .packetTooShort
  else
    let lat := f64FromBits (beNat (data.take 8))
    let lon := f64FromBits (beNat ((data.drop 8).take 8))
    if ¬ isValidCoordinate lat lon then .error .invalidCoordinate
    else
      let rem0 := data.drop 16
      let altRead := 4 ≤ rem0.length
      let alt := f32FromBits (beNat (rem0.take 4))
      let rem1 := if altRead then rem0.drop 4 else rem0
      let speedRead := 2 ≤ rem1.length
      let speedW := beNat (rem1.take 2)
      let rem2 := if speedRead then rem1.drop 2 else rem1
      let courseRead := 2 ≤ rem2.length
      let courseW := beNat (rem2.take 2)
      if courseRead ∧ 360 < courseW then .error .invalidValue
      else
        .ok { latitude := lat
              longitude := lon
              altitude := if altRead then alt else .fin 0
              speed := if speedRead then speedDiv10 speedW else 0
              course := if courseRead then (courseW : ℚ) else 0
              status :=
                (if altRead then [altEntry alt] else [])
                ++ (if speedRead then [ratEntry "speed" (speedDiv10 speedW)] else [])
                ++ (if courseRead then [ratEntry "course" (courseW : ℚ)] else []) }

/-- Finite part of an `FVal`; the decoder only stores finite latitude and
longitude in a successfully decoded record, so the 0 default is never hit
there (a NaN altitude would reach it, which no claim inspects). -/
def FVal.toQ : FVal → ℚ
  | .fin q => q
  | _ => 0

/-- `ToPosition` (teltonika/decoder.go:157-172).  Status values are `float64`
in Go; they are reported through their rational part here (exact for every
value a claim touches). -/
def ToPosition (deviceID : String) (data : TeltonikaData) : Position :=
  let base := NewPosition deviceID data.latitude.toQ data.longitude.toQ
  { base with
    speed := data.speed
    course := data.course
    timestamp := data.timestamp
    protocol := "teltonika"
    status := data.status.map (fun entry =>
      match entry with
      | .inl (k, v) => (k, Attr.rat v.toQ)
      | .inr (k, q) => (k, Attr.rat q)) }

end Teltonika

namespace Server

/-- The three wire protocols the TCP server dispatches on. -/
inductive Protocol where
  | gt06
  | h02
  | teltonika
deriving DecidableEq, Repr

/-- Protocol tag string as stored on the synthesized device record. -/
def Protocol.tag : Protocol → String
  | .gt06 => "gt06"
  | .h02 => "h02"
  | .teltonika => "teltonika"

/-- `model.Device` restricted to the fields the connection handler touches. -/
structure Device where
  id : String
  name : String
  uniqueID : String
  status : String
  protocol : String
deriving DecidableEq, Repr

/-- Outcome of `deviceRepo.FindByUniqueID`: a device, a nil result, or a
repository error. -/
inductive RegistryResult where
  | found : Device → RegistryResult
  | notFound
  | lookupFailed
deriving DecidableEq, Repr

/-- The device registry as the handler consumes it. -/
def Registry := String → RegistryResult

/-- Errors of `authenticateDevice` (server.go / part_010:345-394); the
distinctions matter only insofar as every one of them closes the session. -/
inductive AuthErr where
  | dataTooShort
  | invalidFormat
  | repoError
  | deviceNotFound
deriving DecidableEq, Repr

/-- Protocol detection (part_010:428-434): `0x78 0x78` is GT06, an ASCII
`*HQ` is H02, everything else falls through to Teltonika. -/
def detectProtocol (data : List ℕ) : Protocol :=
  if data.take 2 = [0x78, 0x78] then .gt06
  else if data.take 3 = [0x2A, 0x48, 0x51] then .h02
  else .teltonika

/-- The device-id extraction switch of `authenticateDevice`: GT06 takes
`fmt.Sprintf("%X", data[4:10])`, H02 the third comma-separated field,
Teltonika `fmt.Sprintf("%X", data[0:8])`. -/
def extractDeviceID (data : List ℕ) (protocol : Protocol) : Except AuthErr String :=
  match protocol with
  | .gt06 =>
    if data.length < 10 then .error .dataTooShort
    else .ok (hexUpper ((data.drop 4).take 6))
  | .h02 =>
    let parts := (asciiStr data).splitOn ","
    if parts.length < 3 then .error .invalidFormat
    else .ok (parts.getD 2 "")
  | .teltonika =>
    if data.length < 8 then .error .dataTooShort
    else .ok (hexUpper (data.take 8))

/-- The ephemeral device record synthesized for `test-`/`demo-` ids
(part_010:371-382); the two `time.Now()` fields are not modelled. -/
def testDevice (deviceID : String) (protocol : Protocol) : Device where
  id := deviceID
  name := "Test Device"
  uniqueID := deviceID
  status := "active"
  protocol := protocol.tag

/-- `authenticateDevice` (part_010:345-394): extract the id, accept
`test-`/`demo-` ids with a synthesized record without touching the
registry, otherwise resolve through `FindByUniqueID`. -/
def authenticateDevice (data : List ℕ) (protocol : Protocol) (reg : Registry) :
    Except AuthErr Device := do
  let deviceID ← extractDeviceID data protocol
  if deviceID.startsWith "test-" ∨ deviceID.startsWith "demo-" then
    return testDevice deviceID protocol
  else
    match reg deviceID with
    | .lookupFailed => throw .repoError
    | .notFound => throw .deviceNotFound
    | .found d => return d

/-- Per-connection state the read loop keeps (`DeviceConnection`). -/
structure SessState where
  authenticated : Bool
  deviceID : String
deriving DecidableEq, Repr

/-- Result of handling one received chunk inside `handleConnection`'s read
loop: either the handler returns (connection closed) after having written
the listed byte strings, or the loop continues with the new state, the
writes performed, and the positions handed to `positionRepo.Create`. -/
inductive StepRes where
  | closed : List (List ℕ) → StepRes
  | cont : SessState → List (List ℕ) → List Position → StepRes
deriving DecidableEq, Repr

/-- One iteration of `handleConnection`'s read loop (part_010:423-538) on a
received chunk `data`.  `nowH`/`nowM` feed the GT06 login ack.  Socket
writes are modelled as succeeding; a failed ack write closes the session in
the auth branch and merely continues it in the data branch, which no claim
distinguishes.  The `positionRepo.Create` / device-update side effects are
reported through the published-positions list. -/
def connStep (st : SessState) (data : List ℕ) (reg : Registry) (nowH nowM : ℕ) : StepRes :=
  let protocol := detectProtocol data
  if ¬ st.authenticated then
    match authenticateDevice data protocol reg with
    | .error _ => .closed []
    | .ok device =>
      let response : List ℕ :=
        match protocol with
        | .gt06 => GT06.GenerateResponse 0x01 device.id nowH nowM
        | .h02 => strBytes "*HQ,OK#"
        | .teltonika => [0x01]
      .cont ⟨true, device.id⟩ [response] []
  else
    match protocol with
    | .gt06 =>
      match GT06.Decode data with
      | .ok decodedData =>
        let position := GT06.ToPosition st.deviceID decodedData
        let response := GT06.GenerateResponse (data.getD 3 0) st.deviceID nowH nowM
        .cont st [response] [position]
      | .error _ => .cont st [] []
    | .h02 =>
      match H02.Decode (asciiStr data) with
      | .ok decodedData =>
        .cont st [strBytes "*HQ,OK#"] [H02.ToPosition st.deviceID decodedData]
      | .error _ => .cont st [] []
    | .teltonika =>
      match Teltonika.Decode data with
      | .ok decodedData =>
        .cont st [[0x01]] [Teltonika.ToPosition st.deviceID decodedData]
      | .error _ => .cont st [] []

end Server

/-! Derived forms and concrete inputs used by the theorems below. -/

namespace GT06

/-- The timestamp `decodeLocationMessage` stores for a content slice of at
least 18 bytes: the parsed value, or the zero `time.Time` when
`parseTimestamp` fails (its error is discarded). -/
def locTimestamp (l : List ℕ) : GoTime :=
  match parseTimestampGT ((l.drop 12).take 6) with
  | .ok t => .known t
  | .error _ => .zero

/-- The record `decodeLocationMessage` produces on a content slice of at
least 18 bytes. -/
def locData (l : List ℕ) : GT06Data where
  valid := true
  gpsValid := l.getD 0 0 &&& 0x01 == 0x01
  satellites := (l.getD 0 0 >>> 2) &&& 0x0F
  latitude := bcdValue (beNat ((l.drop 1).take 4))
  longitude := bcdValue (beNat ((l.drop 5).take 4))
  speed := (l.getD 9 0 : ℚ)
  course := (beNat ((l.drop 10).take 2) : ℚ)
  timestamp := locTimestamp l
  status := []

/-- Whether a decoder outcome is the modelled Go runtime panic. -/
def isPanic {α : Type} : Except GTErr α → Bool
  | .error .panicked => true
  | _ => false

end GT06

/-- GT06 location packet whose latitude bytes `95 34 56 78` decode to
`950.58…` degrees: 26 bytes, declared length `0x15 = 21 = 26 - 5`, valid XOR
checksum `0x00C2`, valid end bytes. -/
def pktLatOutOfRange : List ℕ :=
  [0x78, 0x78, 0x15, 0x12, 0x0F, 0x95, 0x34, 0x56, 0x78, 0x09, 0x10, 0x20, 0x30,
   0x28, 0x01, 0x44, 0x23, 0x02, 0x14, 0x12, 0x15, 0x13, 0x00, 0xC2, 0x0D, 0x0A]

/-- GT06 location packet identical in structure to `pktLatOutOfRange` but
with BCD month byte `0x13` (month 13), making the timestamp invalid; the
checksum `0x0054` is valid. -/
def pktBadMonth : List ℕ :=
  [0x78, 0x78, 0x15, 0x12, 0x0F, 0x12, 0x34, 0x56, 0x78, 0x09, 0x10, 0x20, 0x30,
   0x28, 0x01, 0x44, 0x23, 0x13, 0x14, 0x12, 0x15, 0x13, 0x00, 0x54, 0x0D, 0x0A]

/-- GT06 status packet of 13 bytes total with declared length `8 = 13 - 5`
and valid checksum `0x005E`: accepted by `Decode`. -/
def pktStatus13 : List ℕ :=
  [0x78, 0x78, 0x08, 0x13, 0x45, 0x00, 0x01, 0x00, 0x01, 0x00, 0x5E, 0x0D, 0x0A]

/-- `pktStatus13` with its checksum bytes overwritten by `FF FF`. -/
def pktStatusBadCk : List ℕ :=
  [0x78, 0x78, 0x08, 0x13, 0x45, 0x00, 0x01, 0x00, 0x01, 0xFF, 0xFF, 0x0D, 0x0A]

/-- Scenario S4's H02 V1 sentence. -/
def sentenceS4 : String :=
  "*HQ,V1,123456789012345,A,2237.7514,N,11408.6214,E,6,2,151022,10,1,6#"

/-- S4 with the date field replaced by a non-numeric string. -/
def sentenceBadDate : String :=
  "*HQ,V1,123456789012345,A,2237.7514,N,11408.6214,E,6,2,BADDAT,10,1,6#"

/-- 24-byte Teltonika packet: latitude `37.7749`, longitude `-122.4194`
(binary64 big-endian), altitude `100.5` (binary32), speed `455` deci-km/h,
course `180`. -/
def pktTeltonika : List ℕ :=
  [0x40, 0x42, 0xE3, 0x2F, 0xEC, 0x56, 0xD5, 0xD0,
   0xC0, 0x5E, 0x9A, 0xD7, 0x73, 0x18, 0xFC, 0x50,
   0x42, 0xC9, 0x00, 0x00, 0x01, 0xC7, 0x00, 0xB4]

/-- `pktTeltonika` with the course bytes replaced by `361`. -/
def pktTeltonikaCourse361 : List ℕ :=
  [0x40, 0x42, 0xE3, 0x2F, 0xEC, 0x56, 0xD5, 0xD0,
   0xC0, 0x5E, 0x9A, 0xD7, 0x73, 0x18, 0xFC, 0x50,
   0x42, 0xC9, 0x00, 0x00, 0x01, 0xC7, 0x01, 0x69]

/-- 16-byte Teltonika packet whose latitude bit pattern is a quiet NaN. -/
def pktTeltonikaNaN : List ℕ :=
  [0x7F, 0xF8, 0x00, 0x00, 0x00, 0x00, 0x00, 0x00,
   0x00, 0x00, 0x00, 0x00, 0x00, 0x00, 0x00, 0x00]

/-- The record `Teltonika.Decode` produces on `pktTeltonika`: the exact
values of the S6 scenario (`37.7749` and `-122.4194` are spelled as the
exact rationals of their binary64 bit patterns). -/
def teltonikaS6Data : Teltonika.TeltonikaData where
  latitude := .fin (332271534304605 / 8796093022208)
  longitude := .fin (-538406215061445 / 4398046511104)
  altitude := .fin (201 / 2)
  speed := 91 / 2
  course := 180
  status := [Teltonika.altEntry (.fin (201 / 2)),
             Teltonika.ratEntry "speed" (91 / 2),
             Teltonika.ratEntry "course" 180]

/-! Reduction lemmas for the `Except` plumbing and the GT06 decoder. -/

lemma ok_bind {ε α β : Type} (v : α) (f : α → Except ε β) :
    (Except.ok v >>= f) = f v := rfl

lemma error_bind {ε α β : Type} (e : ε) (f : α → Except ε β) :
    ((Except.error e : Except ε α) >>= f) = .error e := rfl

lemma pure_bind_ex {ε α β : Type} (v : α) (f : α → Except ε β) :
    ((pure v : Except ε α) >>= f) = f v := rfl

lemma throw_eq {ε α : Type} (e : ε) : (throw e : Except ε α) = .error e := rfl

namespace GT06

lemma gIdx_ok {l : List ℕ} {i : ℕ} (h : i < l.length) : gIdx l i = .ok (l.getD i 0) := by
  simp [gIdx, h, List.getD_eq_getElem?_getD, List.getElem?_eq_getElem h]

lemma gSlice_ok {l : List ℕ} {i j : ℕ} (h1 : i ≤ j) (h2 : j ≤ l.length) :
    gSlice l i j = .ok ((l.drop i).take (j - i)) := by
  simp [gSlice, h1, h2]

lemma minTotal_bounds {p m : ℕ} (h : minTotal p = some m) : 13 ≤ m := by
  unfold minTotal at h
  split_ifs at h <;> injection h with h2 <;> omega

lemma minTotal_cases {p m : ℕ} (h : minTotal p = some m) :
    (p = 0x01 ∧ m = 15) ∨ (p = 0x12 ∧ m = 26) ∨ (p = 0x13 ∧ m = 13) ∨ (p = 0x16 ∧ m = 27) := by
  unfold minTotal at h
  split_ifs at h <;> injection h with h2 <;> omega

/-- `Decode` written as the explicit check cascade it performs; every
index and slice occurring on this path is in bounds once the per-type
minimum size check has passed, so no `panicked` outcome appears. -/
lemma Decode_eq (data : List ℕ) :
    Decode data =
      if data.length < 7 then .error .packetTooShort
      else if ¬ (data.getD 0 0 = 0x78 ∧ data.getD 1 0 = 0x78) then .error .invalidHeader
      else
        match minTotal (data.getD 3 0) with
        | none => .error .invalidMessageType
        | some m =>
          if data.length < m then .error .packetTooShort
          else if data.getD 2 0 ≠ data.length - 5 then .error .invalidLength
          else if calculateChecksum ((data.drop 2).take (data.length - 4 - 2))
              ≠ ((data.getD (data.length - 4) 0) <<< 8 ||| data.getD (data.length - 4 + 1) 0) then
            .error .invalidChecksum
          else if ¬ (data.getD (data.length - 2) 0 = 0x0D ∧ data.getD (data.length - 1) 0 = 0x0A) then
            .error .malformedPacket
          else if data.getD 3 0 = 0x01 then decodeLoginMessage ((data.drop 4).take (data.length - 4 - 4))
          else if data.getD 3 0 = 0x12 then decodeLocationMessage ((data.drop 4).take (data.length - 4 - 4))
          else if data.getD 3 0 = 0x13 then decodeStatusMessage ((data.drop 4).take (data.length - 4 - 4))
          else decodeAlarmMessage ((data.drop 4).take (data.length - 4 - 4)) := by
  unfold Decode
  by_cases h7 : data.length < 7
  · rw [if_pos h7, if_pos h7]
    simp only [throw_eq, error_bind]
  · rw [if_neg h7, if_neg h7]
    simp only [pure_bind_ex,
      gIdx_ok (show 0 < data.length by omega), ok_bind,
      gIdx_ok (show 1 < data.length by omega), ok_bind,
      gIdx_ok (show 3 < data.length by omega), ok_bind]
    by_cases hdr : ¬ (data.getD 0 0 = 0x78 ∧ data.getD 1 0 = 0x78)
    · rw [if_pos hdr, if_pos hdr]
      simp only [throw_eq, error_bind]
    · rw [if_neg hdr, if_neg hdr]
      try simp only [pure_bind_ex]
      cases hmt : minTotal (data.getD 3 0) with
      | none => rfl
      | some m =>
        have hm13 : 13 ≤ m := minTotal_bounds hmt
        simp only [pure_bind_ex, ok_bind]
        by_cases hmin : data.length < m
        · rw [if_pos hmin, if_pos hmin]
          simp only [throw_eq, error_bind]
        · rw [if_neg hmin, if_neg hmin]
          simp only [pure_bind_ex, gIdx_ok (show 2 < data.length by omega), ok_bind]
          by_cases hlen : data.getD 2 0 ≠ data.length - 5
          · rw [if_pos hlen, if_pos hlen]
            simp only [throw_eq, error_bind]
          · rw [if_neg hlen, if_neg hlen]
            simp only [pure_bind_ex,
              gSlice_ok (show (2:ℕ) ≤ data.length - 4 by omega)
                (show data.length - 4 ≤ data.length by omega), ok_bind,
              gIdx_ok (show data.length - 4 < data.length by omega), ok_bind,
              gIdx_ok (show data.length - 4 + 1 < data.length by omega), ok_bind]
            by_cases hck : calculateChecksum ((data.drop 2).take (data.length - 4 - 2))
                ≠ ((data.getD (data.length - 4) 0) <<< 8 ||| data.getD (data.length - 4 + 1) 0)
            · rw [if_pos hck, if_pos hck]
              simp only [throw_eq, error_bind]
            · rw [if_neg hck, if_neg hck]
              simp only [pure_bind_ex,
                gIdx_ok (show data.length - 2 < data.length by omega), ok_bind,
                gIdx_ok (show data.length - 1 < data.length by omega), ok_bind]
              by_cases hend : ¬ (data.getD (data.length - 2) 0 = 0x0D
                  ∧ data.getD (data.length - 1) 0 = 0x0A)
              · rw [if_pos hend, if_pos hend]
                simp only [throw_eq, error_bind]
              · rw [if_neg hend, if_neg hend]
                simp only [pure_bind_ex,
                  gSlice_ok (show (4:ℕ) ≤ data.length - 4 by omega)
                    (show data.length - 4 ≤ data.length by omega), ok_bind]

/-- On a content slice of at least 18 bytes — which `Decode` guarantees for
location messages — `decodeLocationMessage` succeeds and produces
`locData`. -/
lemma decodeLocationMessage_eq (l : List ℕ) (hl : 18 ≤ l.length) :
    decodeLocationMessage l = .ok (locData l) := by
  unfold decodeLocationMessage
  rw [if_neg (by omega), gIdx_ok (by omega), ok_bind,
      gSlice_ok (by omega) (by omega), ok_bind, bcdToFloat, ok_bind,
      gSlice_ok (by omega) (by omega), ok_bind, bcdToFloat, ok_bind,
      gIdx_ok (by omega), ok_bind,
      if_pos (by omega : 11 ≤ l.length),
      gSlice_ok (by omega) (by omega), ok_bind]
  simp only [pure_bind_ex]
  rw [if_pos (by omega : 16 ≤ l.length), gSlice_ok (by omega) (by omega), ok_bind]
  unfold locData locTimestamp
  split <;> rename_i heq <;>
    (try norm_num at heq) <;>
    simp [pure, Except.pure, heq]

lemma decodeStatusMessage_no_panic (l : List ℕ) :
    decodeStatusMessage l ≠ .error .panicked := by
  intro h
  unfold decodeStatusMessage at h
  by_cases h4 : l.length < 4
  · rw [if_pos h4] at h
    simp [throw_eq, error_bind] at h
  · rw [if_neg h4, gIdx_ok (show 0 < l.length by omega)] at h
    simp only [ok_bind, pure_bind_ex] at h
    by_cases hp : 15 < (l.getD 0 0 >>> 4) &&& 15
    · rw [if_pos hp] at h
      simp [throw_eq, error_bind] at h
    · rw [if_neg hp] at h
      try simp only [pure_bind_ex] at h
      by_cases h1 : 1 < l.length
      · rw [if_pos h1, gIdx_ok (show 1 < l.length by omega)] at h
        simp [ok_bind, pure_bind_ex, pure, Except.pure] at h
      · rw [if_neg h1] at h
        simp [pure_bind_ex, pure, Except.pure] at h

lemma decodeLoginMessage_no_panic (l : List ℕ) :
    decodeLoginMessage l ≠ .error .panicked := by
  intro h
  unfold decodeLoginMessage at h
  by_cases h8 : l.length < 8
  · rw [if_pos h8] at h
    simp [throw_eq, error_bind] at h
  · rw [if_neg h8, gSlice_ok (by omega) (by omega)] at h
    simp [ok_bind, pure_bind_ex, pure, Except.pure] at h

/-- On a content slice of at least 19 bytes — which `Decode` guarantees for
alarm messages — `decodeAlarmMessage` succeeds with the location record of
all but the last byte plus the alarm kind. -/
lemma decodeAlarmMessage_eq (l : List ℕ) (hl : 19 ≤ l.length) :
    decodeAlarmMessage l = .ok
      { locData (l.take (l.length - 1)) with
        alarm := alarmName (l.getD (l.length - 1) 0)
        status := [("alarm", .str (alarmName (l.getD (l.length - 1) 0)))] } := by
  unfold decodeAlarmMessage
  rw [if_neg (by omega), gSlice_ok (by omega) (by omega), ok_bind,
      show (l.drop 0).take (l.length - 1 - 0) = l.take (l.length - 1) by simp,
      decodeLocationMessage_eq _ (by rw [List.length_take]; omega), ok_bind,
      gIdx_ok (by omega), ok_bind]
  simp only [pure, Except.pure, locData, ok_bind, pure_bind_ex]
  rfl

lemma isPanic_eq_false_iff {α : Type} (x : Except GTErr α) :
    isPanic x = false ↔ x ≠ .error .panicked := by
  cases x with
  | ok v => simp [isPanic]
  | error e => cases e <;> simp [isPanic]

end GT06

/-! The claims. -/

/-- C1: the GT06 pipeline violates the coordinate-range invariant.  The
valid 26-byte location packet `pktLatOutOfRange` (correct length byte,
checksum and end bytes) decodes successfully although its latitude BCD
bytes `95 34 56 78` evaluate to `213881/225 ≈ 950.58` degrees, and
`ToPosition` emits a `Position` carrying that latitude: `bcdToFloat`
performs no range or digit validation, while the package's own
`TestBCDToFloat` expects `0x95345678` to be rejected. -/
theorem gt06_emits_out_of_range_latitude :
    (GT06.Decode pktLatOutOfRange).map (fun d => (GT06.ToPosition "device1" d).latitude)
        = .ok (213881 / 225 : ℚ)
      ∧ (90 : ℚ) < 213881 / 225 := by
  constructor
  · with_unfolding_all rfl
  · norm_num

/-- C4: `bcdToFloat` does not implement the claimed
`degrees + (minutes + fractional/10000)/60` decoding and never returns
`InvalidCoordinate`.  At `0xA2345678` the first nibble is `0xA > 9`, yet the
first variant returns `229631/225 ≈ 1020.58` with a nil error, and the second
variant (`bcdToFloatV2`) returns `104839/3000 ≈ 34.95`; at the test vector
`0x12345678` the first variant returns `27131/225 ≈ 120.58` where the claim
(and `TestBCDToFloat`) expect `≈ 12.5761`. -/
theorem gt06_bcdToFloat_accepts_invalid_bcd :
    9 < ((0xA2345678 : ℕ) >>> 28) &&& 0xF
      ∧ GT06.bcdToFloat 0xA2345678 = .ok (229631 / 225 : ℚ)
      ∧ GT06.bcdToFloat 0x12345678 = .ok (27131 / 225 : ℚ)
      ∧ GT06.bcdToFloatV2 0xA2345678 = .ok (104839 / 3000 : ℚ) := by
  refine ⟨by decide, ?_, ?_, ?_⟩ <;> with_unfolding_all rfl

/-- C3 (counterexample): `Decode` accepts the 13-byte status packet
`pktStatus13` whose length byte is `8 = 13 - 5`; its total size is `L + 5`,
not the claimed `L + 7`. -/
theorem gt06_accepts_len_plus_five :
    (GT06.Decode pktStatus13).isOk = true
      ∧ pktStatus13.length = pktStatus13.getD 2 0 + 5
      ∧ pktStatus13.getD 2 0 + 7 ≠ pktStatus13.length := by
  refine ⟨?_, by decide, by decide⟩
  with_unfolding_all rfl

/-- C3 (amended): the GT06 decoder accepts a packet only when the length
byte `L` satisfies `L = total - 5`, i.e. total wire size `= L + 5` (the
length byte effectively counts protocol byte, payload and end bytes and
excludes start, length and checksum bytes); among packets that pass the
header, message-type and minimum-size checks, any other relation is
rejected with `InvalidLength`. -/
theorem gt06_length_semantics :
    (∀ data : List ℕ, (GT06.Decode data).isOk = true → data.getD 2 0 = data.length - 5)
    ∧ (∀ (data : List ℕ) (m : ℕ), ¬ data.length < 7 →
        data.getD 0 0 = 0x78 → data.getD 1 0 = 0x78 →
        GT06.minTotal (data.getD 3 0) = some m → ¬ data.length < m →
        data.getD 2 0 ≠ data.length - 5 →
        GT06.Decode data = .error .invalidLength) := by
  constructor
  · intro data h
    rw [GT06.Decode_eq] at h
    by_contra hne
    by_cases h7 : data.length < 7
    · rw [if_pos h7] at h
      simp [Except.isOk, Except.toBool] at h
    · rw [if_neg h7] at h
      by_cases hdr : ¬ (data.getD 0 0 = 0x78 ∧ data.getD 1 0 = 0x78)
      · rw [if_pos hdr] at h
        simp [Except.isOk, Except.toBool] at h
      · rw [if_neg hdr] at h
        rcases hmt : GT06.minTotal (data.getD 3 0) with _ | m <;> simp only [hmt] at h
        · simp [Except.isOk, Except.toBool] at h
        · by_cases hmin : data.length < m
          · rw [if_pos hmin] at h
            simp [Except.isOk, Except.toBool] at h
          · rw [if_neg hmin, if_pos hne] at h
            simp [Except.isOk, Except.toBool] at h
  · intro data m h7 h0 h1 hmt hmin hlen
    rw [GT06.Decode_eq, if_neg h7, if_neg (not_not_intro ⟨h0, h1⟩)]
    simp only [hmt]
    rw [if_neg hmin, if_pos hlen]

/-- C3 (witness): the accepted `pktStatus13` satisfies the `L = total - 5`
relation, and the same packet with its length byte changed to `0x15` is
rejected with `InvalidLength`. -/
theorem gt06_length_semantics_witness :
    pktStatus13.getD 2 0 = pktStatus13.length - 5
      ∧ GT06.Decode [0x78, 0x78, 0x15, 0x13, 0x45, 0x00, 0x01, 0x00, 0x01, 0x00, 0x5E, 0x0D, 0x0A]
          = .error .invalidLength := by
  constructor
  · exact gt06_length_semantics.1 pktStatus13 (by with_unfolding_all rfl)
  · exact gt06_length_semantics.2 _ 13 (by decide) (by decide) (by decide) (by decide)
      (by decide) (by decide)

/-- C9 (counterexample): the GT06 login ack embeds the current UTC hour and
minute, so two calls with identical message type and device id but clock
readings one minute apart produce different bytes. -/
theorem gt06_login_ack_clock_dependent :
    GT06.GenerateResponse 0x01 "862" 0 0 ≠ GT06.GenerateResponse 0x01 "862" 0 1 := by
  with_unfolding_all decide

/-- C9 (amended): for every non-login message type the GT06 response is a
constant byte string depending only on the message type, hence byte-identical
across calls; only the login response reads the clock. -/
theorem gt06_nonlogin_ack_deterministic :
    ∀ (msgType : ℕ) (deviceID : String) (h1 m1 h2 m2 : ℕ), msgType ≠ 0x01 →
      GT06.GenerateResponse msgType deviceID h1 m1
        = GT06.GenerateResponse msgType deviceID h2 m2 := by
  intro msgType deviceID h1 m1 h2 m2 hne
  unfold GT06.GenerateResponse
  rw [if_neg hne, if_neg hne]

/-- C9 (witness): the location ack is identical at two different clock
readings. -/
theorem gt06_nonlogin_ack_deterministic_witness :
    GT06.GenerateResponse 0x12 "862" 0 0 = GT06.GenerateResponse 0x12 "862" 23 59 :=
  gt06_nonlogin_ack_deterministic 0x12 "862" 0 0 23 59 (by decide)

/-- C2 (counterexample): a GT06 location packet whose BCD month byte is
`0x13` (month 13, rejected by `parseTimestamp`) still decodes and yields a
`Position` carrying the zero time, and the H02 V1 sentence with an
unparseable date field still decodes and yields a `Position` carrying the
wall-clock time set at decode start — contradicting the claim that no such
`Position` is emitted. -/
theorem timestamp_failure_emits_position :
    GT06.parseTimestampGT [0x23, 0x13, 0x14, 0x12, 0x15, 0x13] = .error .invalidTimestamp
      ∧ (GT06.Decode pktBadMonth).map (fun d => (GT06.ToPosition "device2" d).timestamp)
          = .ok .zero
      ∧ (H02.Decode sentenceBadDate).map (fun d => (H02.ToPosition "device2" d).timestamp)
          = .ok .wallClock := by
  refine ⟨?_, ?_, ?_⟩ <;> with_unfolding_all rfl

/-- C2 (amended): when the timestamp field of a location frame fails to
parse, both decoders still succeed instead of failing: the GT06 location
decoder emits its record with the zero `time.Time`, and the H02 info-report
decoder emits its record with the `time.Now()` value captured at decode
start. -/
theorem timestamp_failure_silently_defaulted :
    (∀ l : List ℕ, 18 ≤ l.length →
      (GT06.parseTimestampGT ((l.drop 12).take 6)).isOk = false →
      GT06.decodeLocationMessage l = .ok (GT06.locData l)
        ∧ (GT06.locData l).timestamp = .zero)
    ∧ (∀ (parts : List String) (d : H02.H02Data),
      H02.decodeInfoReport parts = .ok d →
      (H02.parseTimestampH02 (parts.getD 8 "")).isOk = false →
      d.timestamp = .wallClock) := by
  constructor
  · intro l hl hfail
    refine ⟨GT06.decodeLocationMessage_eq l hl, ?_⟩
    show GT06.locTimestamp l = .zero
    unfold GT06.locTimestamp
    cases hts : GT06.parseTimestampGT ((l.drop 12).take 6) with
    | ok t => rw [hts] at hfail; simp [Except.isOk, Except.toBool] at hfail
    | error e => rfl
  · intro parts d h hfail
    unfold H02.decodeInfoReport at h
    by_cases h10 : parts.length < 10
    · rw [if_pos h10] at h
      simp [throw_eq, error_bind] at h
    · rw [if_neg h10] at h
      try simp only [pure_bind_ex] at h
      cases hlat : H02.parseCoordinate (parts.getD 2 "") (parts.getD 3 "") with
      | error e =>
        rw [hlat, error_bind] at h
        exact Except.noConfusion h
      | ok lat =>
        rw [hlat, ok_bind] at h
        cases hlon : H02.parseCoordinate (parts.getD 4 "") (parts.getD 5 "") with
        | error e =>
          rw [hlon, error_bind] at h
          exact Except.noConfusion h
        | ok lon =>
          rw [hlon, ok_bind] at h
          cases hts : H02.parseTimestampH02 (parts.getD 8 "") with
          | ok t => rw [hts] at hfail; simp [Except.isOk, Except.toBool] at hfail
          | error e =>
            rw [hts] at h
            simp only [pure, Except.pure, Except.ok.injEq] at h
            rw [← h]

/-- C2 (witness): the amended statement applied to the content of
`pktBadMonth` and to the field list of `sentenceBadDate`. -/
theorem timestamp_failure_silently_defaulted_witness :
    (GT06.decodeLocationMessage ((pktBadMonth.drop 4).take 18)
        = .ok (GT06.locData ((pktBadMonth.drop 4).take 18))
      ∧ (GT06.locData ((pktBadMonth.drop 4).take 18)).timestamp = .zero)
    ∧ ({ latitude := 2262919 / 100000, longitude := 11414369 / 100000,
         speed := 1389 / 125, course := 2, timestamp := .wallClock, valid := true,
         powerLevel := 10, gsmSignal := 0, alarm := "",
         status := [("powerLevel", .int 10)] } : H02.H02Data).timestamp = .wallClock :=
  ⟨timestamp_failure_silently_defaulted.1 ((pktBadMonth.drop 4).take 18)
      (by with_unfolding_all decide) (by with_unfolding_all rfl),
   timestamp_failure_silently_defaulted.2
      ["123456789012345", "A", "2237.7514", "N", "11408.6214", "E", "6", "2", "BADDAT", "10", "1", "6"]
      _ (by with_unfolding_all rfl) (by with_unfolding_all rfl)⟩

/-- C5 (amended): decoding the S4 sentence yields exactly the claimed
latitude `22.62919`, longitude `114.14369`, speed `6 × 1.852 = 11.112` km/h,
course `2`, and `powerLevel = 10` attribute (also present on the emitted
`Position`), but the timestamp is `2015-10-22T00:00:00Z`: the 6-digit date
field is interpreted as `YYMMDD`, not `DDMMYY`. -/
theorem h02_s4_decode :
    H02.Decode sentenceS4 = .ok
      { latitude := 2262919 / 100000, longitude := 11414369 / 100000,
        speed := 1389 / 125, course := 2,
        timestamp := .known ⟨2015, 10, 22, 0, 0, 0⟩, valid := true,
        powerLevel := 10, gsmSignal := 0, alarm := "",
        status := [("powerLevel", .int 10)] }
    ∧ (1389 / 125 : ℚ) = 6 * (1852 / 1000)
    ∧ (H02.Decode sentenceS4).map (fun d => (H02.ToPosition "123456789012345" d).status)
        = .ok [("powerLevel", Attr.int 10)] := by
  refine ⟨by with_unfolding_all rfl, by norm_num, by with_unfolding_all rfl⟩

/-- C5 (counterexample): the S4 sentence's date field `151022` is parsed as
`YYMMDD`, producing 2015-10-22, not the claimed 2022-10-15. -/
theorem h02_s4_date_read_as_yymmdd :
    (H02.Decode sentenceS4).map (fun d => d.timestamp)
        = .ok (.known ⟨2015, 10, 22, 0, 0, 0⟩)
      ∧ GoTime.known ⟨2015, 10, 22, 0, 0, 0⟩ ≠ GoTime.known ⟨2022, 10, 15, 0, 0, 0⟩ :=
  ⟨by with_unfolding_all rfl, by decide⟩

/-- C10: `Decode` is total — no input byte slice can reach an out-of-bounds
slice access (modelled as the `panicked` outcome): the per-type minimum
total sizes (26 for location, 27 for alarm) leave the content slice with at
least 18 bytes, covering `data[10:12]` and `data[12:18]` whose local guards
(`len ≥ 11`, `len ≥ 16`) would not suffice — as the second conjunct shows,
`decodeLocationMessage` on a standalone 11-byte slice does panic. -/
theorem gt06_decode_total :
    (∀ data : List ℕ, GT06.isPanic (GT06.Decode data) = false)
      ∧ GT06.isPanic (GT06.decodeLocationMessage (List.replicate 11 0)) = true := by
  constructor
  · intro data
    rw [GT06.Decode_eq]
    by_cases h7 : data.length < 7
    · rw [if_pos h7]; rfl
    rw [if_neg h7]
    by_cases hdr : ¬ (data.getD 0 0 = 0x78 ∧ data.getD 1 0 = 0x78)
    · rw [if_pos hdr]; rfl
    rw [if_neg hdr]
    rcases hmt : GT06.minTotal (data.getD 3 0) with _ | m
    · simp only [hmt]
      rfl
    simp only [hmt]
    have hm13 : 13 ≤ m := GT06.minTotal_bounds hmt
    by_cases hmin : data.length < m
    · rw [if_pos hmin]; rfl
    rw [if_neg hmin]
    by_cases hlen : data.getD 2 0 ≠ data.length - 5
    · rw [if_pos hlen]; rfl
    rw [if_neg hlen]
    by_cases hck : GT06.calculateChecksum ((data.drop 2).take (data.length - 4 - 2))
        ≠ ((data.getD (data.length - 4) 0) <<< 8 ||| data.getD (data.length - 4 + 1) 0)
    · rw [if_pos hck]; rfl
    rw [if_neg hck]
    by_cases hend : ¬ (data.getD (data.length - 2) 0 = 0x0D ∧ data.getD (data.length - 1) 0 = 0x0A)
    · rw [if_pos hend]; rfl
    rw [if_neg hend]
    have hclen : ((data.drop 4).take (data.length - 4 - 4)).length = data.length - 8 := by
      simp
      omega
    rcases GT06.minTotal_cases hmt with ⟨hp, hm⟩ | ⟨hp, hm⟩ | ⟨hp, hm⟩ | ⟨hp, hm⟩
    · rw [if_pos hp, GT06.isPanic_eq_false_iff]
      exact GT06.decodeLoginMessage_no_panic _
    · rw [if_neg (by omega), if_pos hp,
          GT06.decodeLocationMessage_eq _ (by omega)]
      rfl
    · rw [if_neg (by omega), if_neg (by omega), if_pos hp,
          GT06.isPanic_eq_false_iff]
      exact GT06.decodeStatusMessage_no_panic _
    · rw [if_neg (by omega), if_neg (by omega), if_neg (by omega),
          GT06.decodeAlarmMessage_eq _ (by omega)]
      rfl
  · with_unfolding_all rfl

/-- C6 (counterexample): an authenticated session receiving a GT06 frame
whose checksum is wrong does NOT close — the error is logged and the loop
continues with no write and no stored position, contradicting the claim
that `InvalidChecksum` closes the session. -/
theorem invalid_checksum_session_continues :
    GT06.Decode pktStatusBadCk = .error .invalidChecksum
      ∧ Server.connStep ⟨true, "registered1"⟩ pktStatusBadCk (fun _ => .notFound) 0 0
          = .cont ⟨true, "registered1"⟩ [] [] :=
  ⟨by with_unfolding_all rfl, by with_unfolding_all rfl⟩

/-- C6 (amended): no codec error on an authenticated session closes it —
for every decode error of any of the three protocols the frame is dropped,
nothing is written, no position is stored, and the session continues. -/
theorem codec_error_keeps_session_open :
    (∀ (st : Server.SessState) (data : List ℕ) (reg : Server.Registry) (nh nm : ℕ)
        (e : GT06.GTErr), st.authenticated = true →
      Server.detectProtocol data = .gt06 → GT06.Decode data = .error e →
      Server.connStep st data reg nh nm = .cont st [] [])
    ∧ (∀ (st : Server.SessState) (data : List ℕ) (reg : Server.Registry) (nh nm : ℕ)
        (e : H02.H02Err), st.authenticated = true →
      Server.detectProtocol data = .h02 → H02.Decode (asciiStr data) = .error e →
      Server.connStep st data reg nh nm = .cont st [] [])
    ∧ (∀ (st : Server.SessState) (data : List ℕ) (reg : Server.Registry) (nh nm : ℕ)
        (e : Teltonika.TelErr), st.authenticated = true →
      Server.detectProtocol data = .teltonika → Teltonika.Decode data = .error e →
      Server.connStep st data reg nh nm = .cont st [] []) := by
  refine ⟨?_, ?_, ?_⟩ <;>
    · intro st data reg nh nm e hauth hdet hdec
      unfold Server.connStep
      rw [hdet, if_neg (by simp [hauth]), hdec]

/-- C6 (witness): an authenticated session stays open after an H02 frame
that is too short to decode. -/
theorem codec_error_keeps_session_open_witness :
    Server.connStep ⟨true, "registered1"⟩ (strBytes "*HQ,V9,tooshort#")
        (fun _ => .notFound) 0 0 = .cont ⟨true, "registered1"⟩ [] [] :=
  codec_error_keeps_session_open.2.1 ⟨true, "registered1"⟩ (strBytes "*HQ,V9,tooshort#")
    (fun _ => .notFound) 0 0 .packetTooShort rfl (by with_unfolding_all rfl)
    (by with_unfolding_all rfl)

/-- C8: during authentication a device id with the `test-` or `demo-`
prefix is accepted with the synthesized ephemeral record no matter what the
registry answers; any other id that the registry does not resolve (nil
result or lookup error) makes authentication fail, and an unauthenticated
session whose authentication fails is closed with no bytes written. -/
theorem auth_test_devices_bypass_registry :
    (∀ (data : List ℕ) (proto : Server.Protocol) (reg : Server.Registry) (id : String),
      Server.extractDeviceID data proto = .ok id →
      (id.startsWith "test-" || id.startsWith "demo-") = true →
      Server.authenticateDevice data proto reg = .ok (Server.testDevice id proto))
    ∧ (∀ (data : List ℕ) (proto : Server.Protocol) (reg : Server.Registry) (id : String),
      Server.extractDeviceID data proto = .ok id →
      (id.startsWith "test-" || id.startsWith "demo-") = false →
      (reg id = .notFound ∨ reg id = .lookupFailed) →
      (Server.authenticateDevice data proto reg).isOk = false)
    ∧ (∀ (st : Server.SessState) (data : List ℕ) (reg : Server.Registry) (nh nm : ℕ),
      st.authenticated = false →
      (Server.authenticateDevice data (Server.detectProtocol data) reg).isOk = false →
      Server.connStep st data reg nh nm = .closed []) := by
  refine ⟨?_, ?_, ?_⟩
  · intro data proto reg id hx hpref
    unfold Server.authenticateDevice
    rw [hx, ok_bind, if_pos (by
      rcases Bool.or_eq_true_iff.mp hpref with h | h
      · exact Or.inl h
      · exact Or.inr h)]
    rfl
  · intro data proto reg id hx hpref hreg
    unfold Server.authenticateDevice
    rw [hx, ok_bind, if_neg (by
      rcases Bool.or_eq_false_iff.mp hpref with ⟨h1, h2⟩
      simp [h1, h2])]
    rcases hreg with h | h <;> rw [h] <;> rfl
  · intro st data reg nh nm hauth hfail
    unfold Server.connStep
    rw [if_pos (by simp [hauth])]
    cases hA : Server.authenticateDevice data (Server.detectProtocol data) reg with
    | error e => rfl
    | ok d =>
      rw [hA] at hfail
      simp [Except.isOk, Except.toBool] at hfail

/-- C8 (witness): an H02 frame carrying id `test-abc` is accepted even by a
failing registry; a GT06 login whose hex id resolves to nothing makes
authentication fail and the unauthenticated session close without
writes. -/
theorem auth_test_devices_bypass_registry_witness :
    Server.authenticateDevice (strBytes "*HQ,V1,test-abc") .h02 (fun _ => .lookupFailed)
        = .ok (Server.testDevice "test-abc" .h02)
      ∧ (Server.authenticateDevice
          [0x78, 0x78, 0x0D, 0x01, 0x01, 0x23, 0x45, 0x67, 0x89, 0xAB, 0x00, 0x01, 0x00, 0x01, 0x0D, 0x0A]
          .gt06 (fun _ => .notFound)).isOk = false
      ∧ Server.connStep ⟨false, ""⟩
          [0x78, 0x78, 0x0D, 0x01, 0x01, 0x23, 0x45, 0x67, 0x89, 0xAB, 0x00, 0x01, 0x00, 0x01, 0x0D, 0x0A]
          (fun _ => .notFound) 0 0 = .closed [] :=
  ⟨auth_test_devices_bypass_registry.1 (strBytes "*HQ,V1,test-abc") .h02 (fun _ => .lookupFailed)
      "test-abc" (by with_unfolding_all rfl) (by with_unfolding_all rfl),
   auth_test_devices_bypass_registry.2.1 _ .gt06 (fun _ => .notFound) "0123456789AB"
      (by with_unfolding_all rfl) (by with_unfolding_all rfl) (Or.inl rfl),
   auth_test_devices_bypass_registry.2.2 ⟨false, ""⟩ _ (fun _ => .notFound) 0 0 rfl
      (by with_unfolding_all rfl)⟩

/-- C7: the Teltonika decoder reads latitude and longitude as big-endian
binary64 bit patterns and rejects NaN, infinite or out-of-range pairs
(`isValidCoordinate` holds exactly for finite in-range values, matching the
IEEE comparison semantics of the Go code); a packet below 16 bytes fails
with `PacketTooShort`; when present, altitude is the binary32 at bytes
16-20, speed is the big-endian `uint16` at bytes 20-22 divided by ten under
IEEE rounding (`speedDiv10 455 = 45.5`), and the course `uint16` at bytes
22-24 is rejected with `InvalidValue` above 360. -/
theorem teltonika_decode_functional :
    (∀ data : List ℕ, data.length < 16 → Teltonika.Decode data = .error .packetTooShort)
    ∧ (∀ v w : Teltonika.FVal, Teltonika.isValidCoordinate v w = true ↔
        ∃ a b : ℚ, v = .fin a ∧ w = .fin b ∧ -90 ≤ a ∧ a ≤ 90 ∧ -180 ≤ b ∧ b ≤ 180)
    ∧ (∀ data : List ℕ, 16 ≤ data.length →
        Teltonika.isValidCoordinate (Teltonika.f64FromBits (beNat (data.take 8)))
          (Teltonika.f64FromBits (beNat ((data.drop 8).take 8))) = false →
        Teltonika.Decode data = .error .invalidCoordinate)
    ∧ (∀ (data : List ℕ) (d : Teltonika.TeltonikaData), Teltonika.Decode data = .ok d →
        d.latitude = Teltonika.f64FromBits (beNat (data.take 8))
        ∧ d.longitude = Teltonika.f64FromBits (beNat ((data.drop 8).take 8))
        ∧ Teltonika.isValidCoordinate d.latitude d.longitude = true)
    ∧ (∀ data : List ℕ, 24 ≤ data.length →
        Teltonika.isValidCoordinate (Teltonika.f64FromBits (beNat (data.take 8)))
          (Teltonika.f64FromBits (beNat ((data.drop 8).take 8))) = true →
        360 < beNat ((data.drop 22).take 2) →
        Teltonika.Decode data = .error .invalidValue)
    ∧ (∀ (data : List ℕ) (d : Teltonika.TeltonikaData), Teltonika.Decode data = .ok d →
        20 ≤ data.length →
        d.altitude = Teltonika.f32FromBits (beNat ((data.drop 16).take 4))
        ∧ (22 ≤ data.length → d.speed = Teltonika.speedDiv10 (beNat ((data.drop 20).take 2)))
        ∧ (24 ≤ data.length → d.course = (beNat ((data.drop 22).take 2) : ℚ)
            ∧ beNat ((data.drop 22).take 2) ≤ 360))
    ∧ Teltonika.speedDiv10 455 = 91 / 2 := by
  refine ⟨?_, ?_, ?_, ?_, ?_, ?_, by with_unfolding_all rfl⟩
  · intro data h
    unfold Teltonika.Decode
    rw [if_pos h]
  · intro v w
    cases v <;> cases w <;> simp [Teltonika.isValidCoordinate, and_assoc]
  · intro data h16 hbad
    simp only [Teltonika.Decode]
    rw [if_neg (by omega), if_pos (by simp [hbad])]
  · intro data d h
    simp only [Teltonika.Decode] at h
    by_cases h16 : data.length < 16
    · rw [if_pos h16] at h
      exact absurd h (by simp)
    rw [if_neg h16] at h
    by_cases hval : Teltonika.isValidCoordinate (Teltonika.f64FromBits (beNat (data.take 8)))
        (Teltonika.f64FromBits (beNat ((data.drop 8).take 8))) = true
    · rw [if_neg (by simp [hval])] at h
      repeat' split at h
      all_goals first
        | exact Except.noConfusion h
        | (injection h with h2; subst h2; exact ⟨rfl, rfl, hval⟩)
    · rw [if_pos (by simp [hval])] at h
      exact absurd h (by simp)
  · intro data h24 hvalid hcourse
    simp only [Teltonika.Decode]
    rw [if_neg (by omega), if_neg (by simp [hvalid])]
    have e1 : 4 ≤ (data.drop 16).length := by simp; omega
    rw [if_pos e1, show (data.drop 16).drop 4 = data.drop 20 from by rw [List.drop_drop]]
    have e3 : 2 ≤ (data.drop 20).length := by simp; omega
    rw [if_pos e3, show (data.drop 20).drop 2 = data.drop 22 from by rw [List.drop_drop]]
    rw [if_pos ⟨by simp; omega, hcourse⟩]
  · intro data d h h20
    simp only [Teltonika.Decode] at h
    by_cases h16 : data.length < 16
    · rw [if_pos h16] at h
      exact absurd h (by simp)
    rw [if_neg h16] at h
    by_cases hval : Teltonika.isValidCoordinate (Teltonika.f64FromBits (beNat (data.take 8)))
        (Teltonika.f64FromBits (beNat ((data.drop 8).take 8))) = true
    · rw [if_neg (by simp [hval])] at h
      have e1 : 4 ≤ (data.drop 16).length := by simp; omega
      simp only [if_pos e1,
        show (data.drop 16).drop 4 = data.drop 20 from by rw [List.drop_drop]] at h
      by_cases hs2 : 2 ≤ (data.drop 20).length
      · simp only [if_pos hs2,
          show (data.drop 20).drop 2 = data.drop 22 from by rw [List.drop_drop]] at h
        by_cases hc2 : 2 ≤ (data.drop 22).length
        · by_cases hgt : 360 < beNat ((data.drop 22).take 2)
          · rw [if_pos ⟨hc2, hgt⟩] at h
            exact Except.noConfusion h
          · simp only [if_neg (show ¬ (2 ≤ (data.drop 22).length
                  ∧ 360 < beNat ((data.drop 22).take 2)) from fun hx => hgt hx.2),
                if_pos hc2] at h
            injection h with h2
            subst h2
            exact ⟨rfl, fun _ => rfl, fun _ => ⟨rfl, by omega⟩⟩
        · simp only [if_neg (show ¬ (2 ≤ (data.drop 22).length
                ∧ 360 < beNat ((data.drop 22).take 2)) from fun hx => hc2 hx.1),
              if_neg hc2] at h
          injection h with h2
          subst h2
          refine ⟨rfl, fun _ => rfl, fun hc24 => absurd ?_ hc2⟩
          simp
          omega
      · simp only [if_neg hs2] at h
        rw [if_neg (show ¬ (2 ≤ (data.drop 20).length
            ∧ 360 < beNat ((data.drop 20).take 2)) from fun hx => hs2 hx.1)] at h
        injection h with h2
        subst h2
        refine ⟨rfl, fun h22 => absurd ?_ hs2, fun hc24 => absurd ?_ hs2⟩
        · simp; omega
        · simp; omega
    · rw [if_pos (by simp [hval])] at h
      exact absurd h (by simp)

set_option maxRecDepth 8000 in
/-- C7 (witness): concrete applications — the empty packet, the NaN
packet, the S6 packet `pktTeltonika` (whose decoded record is
`teltonikaS6Data`), and the course-361 packet. -/
theorem teltonika_decode_functional_witness :
    Teltonika.Decode [] = .error .packetTooShort
      ∧ Teltonika.isValidCoordinate (.fin 37) (.fin (-120)) = true
      ∧ Teltonika.Decode pktTeltonikaNaN = .error .invalidCoordinate
      ∧ (teltonikaS6Data.latitude = Teltonika.f64FromBits (beNat (pktTeltonika.take 8))
          ∧ teltonikaS6Data.longitude = Teltonika.f64FromBits (beNat ((pktTeltonika.drop 8).take 8))
          ∧ Teltonika.isValidCoordinate teltonikaS6Data.latitude teltonikaS6Data.longitude = true)
      ∧ Teltonika.Decode pktTeltonikaCourse361 = .error .invalidValue
      ∧ teltonikaS6Data.altitude = Teltonika.f32FromBits (beNat ((pktTeltonika.drop 16).take 4))
      ∧ teltonikaS6Data.speed = Teltonika.speedDiv10 (beNat ((pktTeltonika.drop 20).take 2))
      ∧ teltonikaS6Data.course = (beNat ((pktTeltonika.drop 22).take 2) : ℚ) :=
  have hdec : Teltonika.Decode pktTeltonika = .ok teltonikaS6Data := by
    with_unfolding_all rfl
  ⟨teltonika_decode_functional.1 [] (by decide),
   (teltonika_decode_functional.2.1 (.fin 37) (.fin (-120))).mpr
     ⟨37, -120, rfl, rfl, by norm_num, by norm_num, by norm_num, by norm_num⟩,
   teltonika_decode_functional.2.2.1 pktTeltonikaNaN (by decide) (by with_unfolding_all rfl),
   teltonika_decode_functional.2.2.2.1 pktTeltonika teltonikaS6Data hdec,
   teltonika_decode_functional.2.2.2.2.1 pktTeltonikaCourse361 (by decide)
     (by with_unfolding_all rfl) (by with_unfolding_all decide),
   (teltonika_decode_functional.2.2.2.2.2.1 pktTeltonika teltonikaS6Data hdec (by decide)).1,
   (teltonika_decode_functional.2.2.2.2.2.1 pktTeltonika teltonikaS6Data hdec (by decide)).2.1
     (by decide),
   ((teltonika_decode_functional.2.2.2.2.2.1 pktTeltonika teltonikaS6Data hdec (by decide)).2.2
     (by decide)).1⟩

end DoTrack
